import Mathlib

/-!
Verification of the EV-Bus-Intelligent-Fleet-Analytics frontend controllers.

Shallow embedding of the page-controller logic in `src/frontend/js/` and the
unnamed controllers (signup.js, dashboard.js).  JavaScript numbers are
modelled as rationals (the arithmetic the claims are about is exact), the
browser `localStorage` as an association list of string keys and values, and
the event-driven pieces (the `requestAnimationFrame` interpolation steppers
and the poll re-entrancy guard) as explicit transition systems.
-/

namespace EVFleet

/-! ## Generic association lists (JavaScript objects / localStorage) -/

/-- Lookup of a key in an association list, mirroring JavaScript object
property access (`obj[k]`, `localStorage.getItem(k)`). -/
def alookup {α : Type} : List (String × α) → String → Option α
  | [], _ => none
  | p :: rest, k => if p.1 = k then some p.2 else alookup rest k

/-- Key assignment (`obj[k] = v`, `localStorage.setItem(k, v)`): overwrites
the existing entry or appends a new one. -/
def ainsert {α : Type} : List (String × α) → String → α → List (String × α)
  | [], k, v => [(k, v)]
  | p :: rest, k, v => if p.1 = k then (k, v) :: rest else p :: ainsert rest k v

/-- Key removal (`delete obj[k]`, `localStorage.removeItem(k)`). -/
def aerase {α : Type} : List (String × α) → String → List (String × α)
  | [], _ => []
  | p :: rest, k => if p.1 = k then aerase rest k else p :: aerase rest k

/-! ## logs.js — SoH classification -/

/-- Result of `getStatusAndIssues` in `logs.js`: a status label and an issue
count. -/
structure StatusIssues where
  status : String
  issues : Nat
deriving DecidableEq

/-- `logs.js` `getStatusAndIssues(sohPercent)`: threshold classification of a
state-of-health percentage. -/
def getStatusAndIssues (sohPercent : ℚ) : StatusIssues :=
  if 90 ≤ sohPercent then ⟨"Good", 0⟩
  else if 60 ≤ sohPercent then ⟨"Proper", 0⟩
  else if 50 ≤ sohPercent then ⟨"Attention", 1⟩
  else ⟨"Critical", 1⟩

/-! ## logs.js — inline state box -/

/-- The parts of the logs page display the claims are about: the state box
(text, css class, visibility) and the rendered log table rows. -/
structure LogsUI where
  stateText : String
  stateClass : String
  stateVisible : Bool
  tableRows : List String
deriving DecidableEq

/-- `logs.js` `showState(message, type)`: shows the inline state box and
clears the table body (`tableBody.innerHTML = ""`). -/
def showState (_ui : LogsUI) (message : String) (ty : String) : LogsUI :=
  { stateText := message,
    stateClass := "state-box " ++ (if ty = "error" then "error" else "loading"),
    stateVisible := true,
    tableRows := ([] : List String) }

/-! ## prediction.js — trip predictor controller -/

/-- The payload of a successful `/api/prediction/predict` response. -/
structure PredictionResult where
  predicted_end_soc : ℚ
  recommended_speed : ℚ
  risk_level : String
  energy_curve : List (ℚ × ℚ)
deriving DecidableEq

/-- Outcome of the prediction remote call as observed by `predictTrip`:
a thrown network/parse error with its message, a non-ok / non-success
response carrying an optional application error string, or a success
payload. -/
inductive PredResponse
  | netError (msg : String)
  | failed (error : Option String)
  | ok (data : PredictionResult)
deriving DecidableEq

/-- The prediction page display state touched by `predictTrip`. -/
structure PredictionUI where
  endSoc : String
  risk : String
  riskColor : String
  speed : String
  chart : Option (List (ℚ × ℚ))
  message : Option (String × String)
deriving DecidableEq

/-- JavaScript `a || b` on an optional string: the fallback is used when the
value is absent or empty (falsy). -/
def jsOrElse (o : Option String) (d : String) : String :=
  match o with
  | some s => if s.isEmpty then d else s
  | none => d

/-- `prediction.js` `showFeedback(text, type)`. -/
def showFeedback (ui : PredictionUI) (text ty : String) : PredictionUI :=
  { ui with message := some (text, ty) }

/-- `prediction.js` `updateKPIs(data)`: writes the KPI cards from the
response payload. -/
def updateKPIs (ui : PredictionUI) (data : PredictionResult) : PredictionUI :=
  { ui with
    endSoc := toString data.predicted_end_soc ++ "%",
    speed := toString data.recommended_speed ++ " km/h",
    risk := data.risk_level,
    riskColor :=
      if data.risk_level = "CRITICAL" then "#ef4444"
      else if data.risk_level = "WARNING" then "#f59e0b"
      else "#10b981" }

/-- `prediction.js` `renderPredictionChart(curveData)`: replaces the chart. -/
def renderPredictionChart (ui : PredictionUI) (curve : List (ℚ × ℚ)) : PredictionUI :=
  { ui with chart := some curve }

/-- `prediction.js` `resetKPIs()`: overwrites the KPI cards with placeholder
text. -/
def resetKPIs (ui : PredictionUI) : PredictionUI :=
  { ui with
    endSoc := "--%",
    risk := "--",
    riskColor := "inherit",
    speed := "-- km/h" }

/-- `prediction.js` `predictTrip` response handling (after validation and the
fetch): on success update KPIs, render the chart and show a success message;
on any failure show the error message and reset the KPIs. -/
def predictTrip (ui : PredictionUI) (resp : PredResponse) : PredictionUI :=
  match resp with
  | .ok data =>
      showFeedback (renderPredictionChart (updateKPIs ui data) data.energy_curve)
        "AI Prediction Successful." "success"
  | .failed e =>
      resetKPIs (showFeedback ui (jsOrElse e "Prediction engine error") "error")
  | .netError msg =>
      resetKPIs (showFeedback ui msg "error")

/-! ## localStorage -/

/-- Browser `localStorage`: a string-keyed map of strings. -/
abbrev Storage : Type := List (String × String)

/-- `localStorage.getItem`. -/
def Storage.getItem (st : Storage) (k : String) : Option String := alookup st k

/-- `localStorage.setItem`. -/
def Storage.setItem (st : Storage) (k v : String) : Storage := ainsert st k v

/-- `localStorage.removeItem`. -/
def Storage.removeItem (st : Storage) (k : String) : Storage := aerase st k

/-! ## login.js — login controller -/

/-- The `user` object of a login response. -/
structure LoginUserInfo where
  name : String
  role : String
  email : Option String
deriving DecidableEq

/-- A login response as observed by `loginUser` after `res.json()`:
the HTTP ok flag, the application success flag, the optional token and
error text, and the user object. -/
structure LoginResponse where
  ok : Bool
  success : Bool
  token : Option String
  error : Option String
  user : LoginUserInfo
deriving DecidableEq

/-- JavaScript truthiness of an optional string (`!data.token` is true for a
missing or empty token). -/
def jsTruthy (o : Option String) : Bool :=
  match o with
  | none => false
  | some s => !s.isEmpty

/-- The JSON text stored under `evfleet_user`
(`JSON.stringify(\x7bname, role, email\x7d)`). -/
def userJsonText (name role email : String) : String :=
  "\x7b\"name\":\"" ++ name ++ "\",\"role\":\"" ++ role ++
    "\",\"email\":\"" ++ email ++ "\"\x7d"

/-- Result of running the login flow: the storage after the call, the page
navigated to (if any), and the inline feedback message (text, css kind). -/
structure LoginOutcome where
  storage : Storage
  navigatedTo : Option String
  message : Option (String × String)
deriving DecidableEq

/-- `login.js` `loginUser` response handling (lines 38-61): on
`!res.ok || !data.success || !data.token` show an error and change nothing
else; otherwise store the token under `evfleet_token`, the user profile under
`evfleet_user`, show a welcome message and navigate to `/index.html`. -/
def loginUser (st : Storage) (emailField : String) (resp : LoginResponse) : LoginOutcome :=
  if !resp.ok || !resp.success || !jsTruthy resp.token then
    { storage := st,
      navigatedTo := none,
      message := some (jsOrElse resp.error "Login failed. Check your credentials.", "error") }
  else
    let tok := match resp.token with | some t => t | none => ""
    let st1 := st.setItem "evfleet_token" tok
    let st2 := st1.setItem "evfleet_user"
      (userJsonText resp.user.name resp.user.role
        (match resp.user.email with
         | some e => if e.isEmpty then emailField else e
         | none => emailField))
    { storage := st2,
      navigatedTo := some "/index.html",
      message := some ("Welcome " ++ resp.user.name ++ "! Redirecting...", "success") }

/-! ## authGuard.js — route guard -/

/-- A user record returned by `/api/auth/me`. -/
structure AuthUser where
  name : String
  email : String
  role : String
deriving DecidableEq

/-- Outcome of the `/api/auth/me` call, had it been sent: a network error, a
non-ok HTTP response, or an ok response with a user record. -/
inductive MeResponse
  | netError
  | httpError
  | okUser (u : AuthUser)
deriving DecidableEq

/-- Result of `getCurrentUser`: the user (or `null`) and whether a request
was actually sent. -/
structure GetUserResult where
  user : Option AuthUser
  requestSent : Bool
deriving DecidableEq

/-- `authGuard.js` `getCurrentUser`: reads the token from localStorage key
`"token"`; with no token it returns `null` without any request; otherwise the
result is the answer of the server (`null` on a non-ok response or error). -/
def getCurrentUser (st : Storage) (server : MeResponse) : GetUserResult :=
  match st.getItem "token" with
  | none => { user := none, requestSent := false }
  | some _ =>
    match server with
    | .netError => { user := none, requestSent := true }
    | .httpError => { user := none, requestSent := true }
    | .okUser u => { user := some u, requestSent := true }

/-- Result of `requireAuth`: the storage after the call, the page navigated
to (if any), and the exposed `window.currentUser`. -/
structure AuthOutcome where
  storage : Storage
  navigatedTo : Option String
  currentUser : Option AuthUser
deriving DecidableEq

/-- `authGuard.js` `requireAuth`: with no current user, remove the `"token"`
key and redirect to `login.html`; otherwise expose the user. -/
def requireAuth (st : Storage) (server : MeResponse) : AuthOutcome :=
  match (getCurrentUser st server).user with
  | none =>
    { storage := st.removeItem "token",
      navigatedTo := some "login.html",
      currentUser := none }
  | some u =>
    { storage := st, navigatedTo := none, currentUser := some u }

/-! ## route.js — marker interpolation (`animateBus`)

`animateBus` creates a fresh stepper closure per call: `steps = 40`, a local
step counter `i`, the per-step increments `dLat`/`dLng` computed once from
the shared cursor (`animationState[id]`), and a `step` callback that, while
`i < steps`, adds the increments to the shared cursor and re-schedules
itself with `requestAnimationFrame`.  The first `step()` runs synchronously
inside the call.  Nothing cancels a previous stepper for the same vehicle:
every stepper created earlier keeps firing once per frame until its own
counter is exhausted, all of them mutating the same shared cursor. -/

/-- The shared per-vehicle interpolation cursor (`animationState[id]`). -/
structure Cursor where
  lat : ℚ
  lng : ℚ
deriving DecidableEq

/-- One `animateBus` stepper closure: its per-step increments and how many
of its 40 steps are still pending. -/
structure Stepper where
  dLat : ℚ
  dLng : ℚ
  remaining : ℕ
deriving DecidableEq

/-- `const steps = 40`. -/
def animSteps : ℕ := 40

/-- One invocation of the `step` callback of a stepper: a no-op once its counter
is exhausted (`if (i >= steps) return`), otherwise it advances the shared
cursor by its increments and decrements its pending count. -/
def stepperFire (c : Cursor) (s : Stepper) : Cursor × Stepper :=
  match s.remaining with
  | 0 => (c, s)
  | n + 1 => (⟨c.lat + s.dLat, c.lng + s.dLng⟩, ⟨s.dLat, s.dLng, n⟩)

/-- A single interpolation run in isolation: apply the increments of one stepper
`n` times to the cursor. -/
def stepN : Cursor → ℚ → ℚ → ℕ → Cursor
  | c, _, _, 0 => c
  | c, dLat, dLng, n + 1 => stepN ⟨c.lat + dLat, c.lng + dLng⟩ dLat dLng n

/-- `animateBus` run to completion with no other stepper in flight: from
cursor `c`, take all 40 steps of increment `(target - c) / 40`. -/
def animateBusRun (c : Cursor) (target : ℚ × ℚ) : Cursor :=
  stepN c ((target.1 - c.lat) / (animSteps : ℚ)) ((target.2 - c.lng) / (animSteps : ℚ)) animSteps

/-- The shared cursor together with every stepper closure currently
scheduled for the vehicle. -/
structure AnimSys where
  cursor : Cursor
  steppers : List Stepper
deriving DecidableEq

/-- One display frame: every scheduled `step` callback fires once, in
scheduling order, each against the cursor as left by the previous one. -/
def runCallbacks : Cursor → List Stepper → Cursor × List Stepper
  | c, [] => (c, [])
  | c, s :: rest =>
    let p := stepperFire c s
    let q := runCallbacks p.1 rest
    (q.1, p.2 :: q.2)

/-- One display frame over the whole system. -/
def frame (sys : AnimSys) : AnimSys :=
  let p := runCallbacks sys.cursor sys.steppers
  ⟨p.1, p.2⟩

/-- `n` display frames. -/
def runFrames : ℕ → AnimSys → AnimSys
  | 0, sys => sys
  | n + 1, sys => runFrames n (frame sys)

/-- A call of `animateBus(id, target)`: compute the increments from the
current shared cursor, run the first step synchronously, and leave the other
39 steps scheduled — WITHOUT cancelling any stepper already in flight. -/
def animateBusCall (sys : AnimSys) (target : ℚ × ℚ) : AnimSys :=
  let dLat := (target.1 - sys.cursor.lat) / (animSteps : ℚ)
  let dLng := (target.2 - sys.cursor.lng) / (animSteps : ℚ)
  { cursor := ⟨sys.cursor.lat + dLat, sys.cursor.lng + dLng⟩,
    steppers := sys.steppers ++ [⟨dLat, dLng, animSteps - 1⟩] }

/-- Latitude displacement still pending across all scheduled steppers. -/
def residualLat : List Stepper → ℚ
  | [] => 0
  | s :: rest => (s.remaining : ℚ) * s.dLat + residualLat rest

/-- Longitude displacement still pending across all scheduled steppers. -/
def residualLng : List Stepper → ℚ
  | [] => 0
  | s :: rest => (s.remaining : ℚ) * s.dLng + residualLng rest

/-- Largest pending step count of any scheduled stepper. -/
def maxRem : List Stepper → ℕ
  | [] => 0
  | s :: rest => max s.remaining (maxRem rest)

/-! ## route.js — poll re-entrancy guard (`fetchRouteStatus`)

`fetchRouteStatus` begins with `if (isFetching) return; isFetching = true;`
and its `finally` block clears the flag when the awaited fetch settles.  The
transition system below has one event for a trigger of the function (the
10-second timer or the search-input listener) and one for the settling of
the in-flight request (the `finally` block). -/

/-- Observable poll-loop state: the `isFetching` flag, how many requests are
currently in flight, how many were ever issued, and how many triggers were
dropped by the guard. -/
structure PollState where
  isFetching : Bool
  inFlight : ℕ
  requestsIssued : ℕ
  dropped : ℕ
deriving DecidableEq

/-- Events of the poll loop: a trigger of `fetchRouteStatus`, or the
settling of the awaited fetch (running the `finally` block). -/
inductive PollEvent
  | trigger
  | settle
deriving DecidableEq

/-- One event of the poll loop.  A trigger while `isFetching` returns
immediately: nothing is issued and nothing is queued.  A trigger otherwise
sets the flag and issues one request.  A settle runs the `finally` block of
the in-flight invocation, clearing the flag. -/
def pollStep (s : PollState) : PollEvent → PollState
  | .trigger =>
    if s.isFetching then { s with dropped := s.dropped + 1 }
    else { s with isFetching := true, inFlight := s.inFlight + 1,
                  requestsIssued := s.requestsIssued + 1 }
  | .settle =>
    match s.inFlight with
    | 0 => s
    | n + 1 => { s with isFetching := false, inFlight := n }

/-- Page-load state of the poll loop. -/
def pollInit : PollState := ⟨false, 0, 0, 0⟩

/-- A run of the poll loop over a sequence of events. -/
def pollRun (evs : List PollEvent) : PollState := evs.foldl pollStep pollInit

/-- The guard invariant: the flag is set exactly while one request is in
flight, and never more than one is. -/
def PollInv (s : PollState) : Prop := s.inFlight ≤ 1 ∧ (s.isFetching = true ↔ s.inFlight = 1)

/-! ## route.js — live fleet reconciliation (`updateMap` and helpers)

The per-cycle state the claims are about: the `busMarkers` and
`animationState` maps (keyed by vehicle identifier, holding positions), the
`stationMarkers` map (keyed by station name) and, to reason about marker
creations over the page lifetime, a log with one entry per station
`circleMarker` ever constructed.  The asynchronous frame-by-frame cursor
stepping spawned by `animateBus` is modelled separately by `AnimSys`; here a
call on an already-present vehicle leaves the key sets untouched (it only
retargets the marker and rebinds icon/popup). -/

/-- A charging station of a route payload. -/
structure ChargingStation where
  name : String
  lat : ℚ
  lng : ℚ
  available : Bool
deriving DecidableEq

/-- A fleet vehicle snapshot of a route payload.  `lat`/`lng` are optional:
`updateMap` skips a bus whose coordinates are `null`/`undefined`. -/
structure Bus where
  bus_id : String
  route_id : String
  lat : Option ℚ
  lng : Option ℚ
  soc : ℚ
  status : String
  charging_station : Option ChargingStation
deriving DecidableEq

/-- The module-level map state of `route.js`. -/
structure RouteMapState where
  busMarkers : List (String × ℚ × ℚ)
  animationState : List (String × ℚ × ℚ)
  stationMarkers : List String
  stationCreations : List String
deriving DecidableEq

/-- Map state at page load: all three maps empty, nothing ever created. -/
def initialMapState : RouteMapState := ⟨[], [], [], []⟩

/-- `route.js` `drawBus(bus)` (called with non-null coordinates): an unseen
identifier gets a fresh marker and a fresh interpolation cursor at the
authoritative position; a known identifier keeps its entries (`animateBus`
only retargets the cursor, modelled by `AnimSys`). -/
def drawBus (st : RouteMapState) (id : String) (lat lng : ℚ) : RouteMapState :=
  match alookup st.busMarkers id with
  | none =>
    { st with
      busMarkers := ainsert st.busMarkers id (lat, lng),
      animationState := ainsert st.animationState id (lat, lng) }
  | some _ => st

/-- `route.js` `drawStation(station)`: skipped entirely when a marker for
the name is already registered (`if (stationMarkers[station.name]) return`),
else a new circle marker is created and registered. -/
def drawStation (st : RouteMapState) (s : ChargingStation) : RouteMapState :=
  if s.name ∈ st.stationMarkers then st
  else
    { st with
      stationMarkers := st.stationMarkers ++ [s.name],
      stationCreations := st.stationCreations ++ [s.name] }

/-- `route.js` `drawOptimizedEmergencyRoute(bus)`: returns early with no
station, otherwise UNCONDITIONALLY creates a new charger circle marker and
overwrites the registration under the name of the station. -/
def drawOptimizedEmergencyRoute (st : RouteMapState) (bus : Bus) : RouteMapState :=
  match bus.charging_station with
  | none => st
  | some s =>
    { st with
      stationMarkers :=
        if s.name ∈ st.stationMarkers then st.stationMarkers
        else st.stationMarkers ++ [s.name],
      stationCreations := st.stationCreations ++ [s.name] }

/-- The body of the `buses.forEach` loop of `updateMap`, threading the
`activeIds` accumulator: a bus with a `null` coordinate is skipped; else its
identifier is recorded, the bus drawn, and its station handled through the
critical / non-critical branch. -/
def updateMapVisit (acc : RouteMapState × List String) (bus : Bus) : RouteMapState × List String :=
  match bus.lat, bus.lng with
  | some lat, some lng =>
    let st1 := drawBus acc.1 bus.bus_id lat lng
    let st2 :=
      match bus.charging_station with
      | some s =>
        if bus.status = "CRITICAL" then drawOptimizedEmergencyRoute st1 bus
        else drawStation st1 s
      | none => st1
    (st2, acc.2 ++ [bus.bus_id])
  | _, _ => acc

/-- The removal pass of `updateMap`: every key of `busMarkers` absent from
`activeIds` has its marker removed and its entries deleted from both
`busMarkers` and `animationState`.  (The loop ranges over the keys of
`busMarkers`, so an `animationState` entry without a marker is untouched.) -/
def removeInactive (st : RouteMapState) (activeIds : List String) : RouteMapState :=
  { st with
    busMarkers := st.busMarkers.filter (fun p => decide (p.1 ∈ activeIds)),
    animationState := st.animationState.filter
      (fun p => decide ((alookup st.busMarkers p.1).isSome = false ∨ p.1 ∈ activeIds)) }

/-- `route.js` `updateMap(buses)`: visit every bus of the batch collecting
the active identifier set, then remove the markers of inactive vehicles.
(The movement/emergency/arrow/station layer groups are cleared first; the
`stationMarkers` registration map is NOT cleared.) -/
def updateMap (st : RouteMapState) (buses : List Bus) : RouteMapState :=
  let r := buses.foldl updateMapVisit (st, [])
  removeInactive r.1 r.2

/-- Identifiers of the buses of a batch that carry non-null coordinates —
exactly the ones `updateMap` draws. -/
def validIds (buses : List Bus) : List String :=
  (buses.filter (fun b => b.lat.isSome && b.lng.isSome)).map Bus.bus_id

/-- The station name a bus references, if any. -/
def stationNameOf (b : Bus) : Option String := b.charging_station.map ChargingStation.name

/-- Number of occurrences of a name in a creation log. -/
def countName (l : List String) (n : String) : ℕ :=
  (l.filter (fun x => decide (x = n))).length

/-- The station-marker part of the reconciliation invariant for one name:
at most one creation has happened, and exactly one iff the name is
registered in `stationMarkers`. -/
def StationInv (n : String) (st : RouteMapState) : Prop :=
  countName st.stationCreations n ≤ 1 ∧
    (countName st.stationCreations n = 1 ↔ n ∈ st.stationMarkers)

/-- The lifetime of the page: the `updateMap` call of every successful poll cycle,
folded from the page-load state. -/
def pageRun (cycles : List (List Bus)) : RouteMapState :=
  cycles.foldl updateMap initialMapState

/-- Substring test, mirroring JavaScript `String.prototype.includes`. -/
def strIncludes (s sub : String) : Bool :=
  (List.range (s.length + 1)).any (fun i => decide ((s.data.drop i).take sub.length = sub.data))

/-- Lower-casing, mirroring JavaScript `String.prototype.toLowerCase` on the
identifiers involved. -/
def lowerStr (s : String) : String := ⟨s.data.map Char.toLower⟩

/-- The search filter of `fetchRouteStatus`: the lower-cased bus identifier
or associated station name must contain the (lower-cased) query. -/
def busMatchesQuery (q : String) (b : Bus) : Bool :=
  strIncludes (lowerStr b.bus_id) q ||
    strIncludes (lowerStr (match b.charging_station with | some s => s.name | none => "")) q

/-- The page state touched by `fetchRouteStatus`: the map state, the
rendered table, and the `routeState` banner (`some text` when displayed). -/
structure RoutePageState where
  mapState : RouteMapState
  table : List Bus
  telemetryBanner : Option String
deriving DecidableEq

/-- The outcome of one poll of `/api/route`: a network/parse error, or a
JSON payload with its success flag and bus list. -/
inductive RouteResponse
  | netError
  | payload (success : Bool) (buses : List Bus)
deriving DecidableEq

/-- One cycle of `route.js` `fetchRouteStatus` (body of the `try`/`catch`,
re-entrancy aside): on a network error or a non-success payload, only the
"Live telemetry unavailable" banner is shown; on success the filtered batch
is rendered into the table and reconciled into the map, and the banner is
hidden. -/
def fetchRouteStatusCycle (page : RoutePageState) (q : String) (resp : RouteResponse) :
    RoutePageState :=
  match resp with
  | .netError => { page with telemetryBanner := some "Live telemetry unavailable" }
  | .payload success buses =>
    if success then
      let filtered := buses.filter (busMatchesQuery (lowerStr q))
      { mapState := updateMap page.mapState filtered,
        table := filtered,
        telemetryBanner := none }
    else { page with telemetryBanner := some "Live telemetry unavailable" }

/-! ## Helper lemmas: association lists -/

theorem alookup_ainsert {α : Type} (l : List (String × α)) (k k' : String) (v : α) :
    alookup (ainsert l k v) k' = if k' = k then some v else alookup l k' := by
  induction l with
  | nil =>
    by_cases h : k' = k
    · subst h; simp [ainsert, alookup]
    · have h2 : ¬ k = k' := fun hh => h hh.symm
      simp [ainsert, alookup, h, h2]
  | cons p rest ih =>
    by_cases hp : p.1 = k
    · by_cases h : k' = k
      · subst h; simp [ainsert, alookup, hp]
      · have h2 : ¬ k = k' := fun hh => h hh.symm
        have h3 : ¬ p.1 = k' := fun hh => h (hh.symm.trans hp)
        simp [ainsert, alookup, hp, h, h2, h3]
    · by_cases h3 : p.1 = k'
      · have h : ¬ k' = k := fun hh => hp (h3.trans hh)
        simp [ainsert, alookup, hp, h3, h]
      · simp [ainsert, alookup, hp, h3, ih]

theorem alookup_filter_key {α : Type} (l : List (String × α)) (f : String → Bool) (k : String) :
    alookup (l.filter (fun p => f p.1)) k = if f k then alookup l k else none := by
  induction l with
  | nil => simp [alookup]
  | cons p rest ih =>
    by_cases hk : p.1 = k
    · subst hk
      by_cases hf : f p.1 <;> simp [List.filter, hf, alookup, ih]
    · by_cases hf : f p.1 <;> simp [List.filter, hf, alookup, hk, ih]

/-! ## Helper lemmas: animation -/

theorem runCallbacks_invariant (l : List Stepper) (c : Cursor) :
    (runCallbacks c l).1.lat + residualLat (runCallbacks c l).2 = c.lat + residualLat l ∧
    (runCallbacks c l).1.lng + residualLng (runCallbacks c l).2 = c.lng + residualLng l := by
  induction l generalizing c with
  | nil => simp [runCallbacks, residualLat, residualLng]
  | cons s rest ih =>
    match hs : s.remaining with
    | 0 =>
      simp only [runCallbacks, stepperFire, hs, residualLat, residualLng]
      constructor
      · have h1 := (ih c).1
        push_cast [hs]
        linarith [h1]
      · have h2 := (ih c).2
        push_cast [hs]
        linarith [h2]
    | n + 1 =>
      simp only [runCallbacks, stepperFire, hs, residualLat, residualLng]
      constructor
      · have h1 := (ih ⟨c.lat + s.dLat, c.lng + s.dLng⟩).1
        push_cast
        push_cast at h1
        linarith [h1]
      · have h2 := (ih ⟨c.lat + s.dLat, c.lng + s.dLng⟩).2
        push_cast
        push_cast at h2
        linarith [h2]

theorem maxRem_runCallbacks (l : List Stepper) (c : Cursor) (k : ℕ)
    (h : maxRem l ≤ k + 1) : maxRem (runCallbacks c l).2 ≤ k := by
  induction l generalizing c with
  | nil => simp [runCallbacks, maxRem]
  | cons s rest ih =>
    have hrest : maxRem rest ≤ k + 1 := le_trans (le_max_right _ _) h
    have hs : s.remaining ≤ k + 1 := le_trans (le_max_left _ _) h
    match hr : s.remaining with
    | 0 =>
      simp only [runCallbacks, stepperFire, hr, maxRem]
      exact max_le (Nat.zero_le k) (ih _ hrest)
    | n + 1 =>
      simp only [runCallbacks, stepperFire, hr, maxRem]
      refine max_le ?_ (ih _ hrest)
      omega

theorem residual_of_maxRem_zero (l : List Stepper) (h : maxRem l = 0) :
    residualLat l = 0 ∧ residualLng l = 0 := by
  induction l with
  | nil => simp [residualLat, residualLng]
  | cons s rest ih =>
    simp only [maxRem, Nat.max_eq_zero_iff] at h
    have := ih h.2
    simp [residualLat, residualLng, h.1, this.1, this.2]

theorem runFrames_exhausts (k : ℕ) (sys : AnimSys) (h : maxRem sys.steppers ≤ k) :
    (runFrames k sys).cursor.lat = sys.cursor.lat + residualLat sys.steppers ∧
    (runFrames k sys).cursor.lng = sys.cursor.lng + residualLng sys.steppers := by
  induction k generalizing sys with
  | zero =>
    have hz : maxRem sys.steppers = 0 := Nat.le_zero.mp h
    have hr := residual_of_maxRem_zero sys.steppers hz
    simp [runFrames, hr.1, hr.2]
  | succ n ih =>
    have hinv := runCallbacks_invariant sys.steppers sys.cursor
    have hmax := maxRem_runCallbacks sys.steppers sys.cursor n h
    have hstep := ih (frame sys) (by simpa [frame] using hmax)
    simp only [runFrames]
    constructor
    · rw [hstep.1]
      have hq : (frame sys).cursor.lat + residualLat (frame sys).steppers
          = sys.cursor.lat + residualLat sys.steppers := by
        simpa [frame] using hinv.1
      linarith [hq]
    · rw [hstep.2]
      have hq : (frame sys).cursor.lng + residualLng (frame sys).steppers
          = sys.cursor.lng + residualLng sys.steppers := by
        simpa [frame] using hinv.2
      linarith [hq]

theorem residualLat_append (l : List Stepper) (s : Stepper) :
    residualLat (l ++ [s]) = residualLat l + (s.remaining : ℚ) * s.dLat := by
  induction l with
  | nil => simp [residualLat]
  | cons t rest ih => simp [residualLat, ih]; ring

theorem residualLng_append (l : List Stepper) (s : Stepper) :
    residualLng (l ++ [s]) = residualLng l + (s.remaining : ℚ) * s.dLng := by
  induction l with
  | nil => simp [residualLng]
  | cons t rest ih => simp [residualLng, ih]; ring

theorem stepN_eq (c : Cursor) (a b : ℚ) (n : ℕ) :
    stepN c a b n = ⟨c.lat + n * a, c.lng + n * b⟩ := by
  induction n generalizing c with
  | zero => simp [stepN]
  | succ m ih =>
    rw [stepN, ih]
    refine congrArg₂ Cursor.mk ?_ ?_ <;> · simp; ring

/-! ## Helper lemmas: poll guard -/

theorem pollStep_preserves (s : PollState) (e : PollEvent) (h : PollInv s) :
    PollInv (pollStep s e) := by
  obtain ⟨h1, h2⟩ := h
  cases e with
  | trigger =>
    by_cases hf : s.isFetching
    · simpa [pollStep, hf, PollInv, h1] using h2
    · have hz : s.inFlight = 0 := by
        rcases Nat.lt_or_ge s.inFlight 1 with hlt | hge
        · omega
        · exfalso
          have : s.inFlight = 1 := le_antisymm h1 hge
          have := h2.mpr this
          exact hf (by simpa using this)
      simp [pollStep, hf, PollInv, hz]
  | settle =>
    match hv : s.inFlight with
    | 0 => simpa [pollStep, hv, PollInv, hv ▸ h1] using h2
    | n + 1 =>
      have : n = 0 := by omega
      simp [pollStep, hv, PollInv, this]

theorem pollRun_inv (evs : List PollEvent) : PollInv (pollRun evs) := by
  have hgen : ∀ s : PollState, PollInv s → PollInv (evs.foldl pollStep s) := by
    induction evs with
    | nil => intro s h; simpa using h
    | cons e rest ih =>
      intro s h
      exact ih (pollStep s e) (pollStep_preserves s e h)
  exact hgen pollInit (by simp [PollInv, pollInit])

/-! ## Helper lemmas: reconciliation -/

theorem countName_append (l m : List String) (n : String) :
    countName (l ++ m) n = countName l n + countName m n := by
  simp [countName, List.filter_append]

theorem countName_singleton (m n : String) :
    countName [m] n = if m = n then 1 else 0 := by
  by_cases h : m = n <;> simp [countName, List.filter, h]

theorem drawBus_station_fields (st : RouteMapState) (bid : String) (lat lng : ℚ) :
    (drawBus st bid lat lng).stationMarkers = st.stationMarkers ∧
    (drawBus st bid lat lng).stationCreations = st.stationCreations := by
  cases h : alookup st.busMarkers bid <;> simp [drawBus, h]

theorem drawStation_bus_fields (st : RouteMapState) (s : ChargingStation) :
    (drawStation st s).busMarkers = st.busMarkers ∧
    (drawStation st s).animationState = st.animationState := by
  by_cases h : s.name ∈ st.stationMarkers <;> simp [drawStation, h]

theorem drawEmergency_bus_fields (st : RouteMapState) (b : Bus) :
    (drawOptimizedEmergencyRoute st b).busMarkers = st.busMarkers ∧
    (drawOptimizedEmergencyRoute st b).animationState = st.animationState := by
  cases h : b.charging_station <;> simp [drawOptimizedEmergencyRoute, h]

theorem drawBus_marker_isSome (st : RouteMapState) (bid : String) (lat lng : ℚ) (id : String) :
    ((alookup (drawBus st bid lat lng).busMarkers id).isSome = true ↔
      ((alookup st.busMarkers id).isSome = true ∨ id = bid)) := by
  cases h : alookup st.busMarkers bid with
  | none =>
    simp only [drawBus, h]
    rw [alookup_ainsert]
    by_cases hid : id = bid
    · simp [hid]
    · simp [hid]
  | some v =>
    simp only [drawBus, h]
    constructor
    · exact fun hsome => Or.inl hsome
    · rintro (hsome | hid)
      · exact hsome
      · rw [hid, h]; rfl

theorem visit_fields (st : RouteMapState) (acc : List String) (b : Bus) (lat lng : ℚ)
    (hlat : b.lat = some lat) (hlng : b.lng = some lng) :
    (updateMapVisit (st, acc) b).1.busMarkers = (drawBus st b.bus_id lat lng).busMarkers ∧
    (updateMapVisit (st, acc) b).1.animationState = (drawBus st b.bus_id lat lng).animationState ∧
    (updateMapVisit (st, acc) b).2 = acc ++ [b.bus_id] := by
  simp only [updateMapVisit, hlat, hlng]
  cases hcs : b.charging_station with
  | none => simp
  | some s =>
    by_cases hcrit : b.status = "CRITICAL"
    · simp [hcrit, (drawEmergency_bus_fields _ b).1, (drawEmergency_bus_fields _ b).2]
    · simp [hcrit, (drawStation_bus_fields _ s).1, (drawStation_bus_fields _ s).2]

theorem validIds_cons_skip (b : Bus) (rest : List Bus) (h : b.lat.isSome = false ∨ b.lng.isSome = false) :
    validIds (b :: rest) = validIds rest := by
  rcases h with h | h <;> simp [validIds, List.filter, h]

theorem validIds_cons_keep (b : Bus) (rest : List Bus) (h1 : b.lat.isSome = true)
    (h2 : b.lng.isSome = true) :
    validIds (b :: rest) = b.bus_id :: validIds rest := by
  simp [validIds, List.filter, h1, h2]

theorem foldl_visit_spec (buses : List Bus) (st : RouteMapState) (acc : List String) :
    (buses.foldl updateMapVisit (st, acc)).2 = acc ++ validIds buses ∧
    (∀ id : String, (alookup (buses.foldl updateMapVisit (st, acc)).1.busMarkers id).isSome = true
        ↔ ((alookup st.busMarkers id).isSome = true ∨ id ∈ validIds buses)) := by
  induction buses generalizing st acc with
  | nil => simp [validIds]
  | cons b rest ih =>
    cases hlat : b.lat with
    | none =>
      have hvis : updateMapVisit (st, acc) b = (st, acc) := by
        simp [updateMapVisit, hlat]
      have hval : validIds (b :: rest) = validIds rest :=
        validIds_cons_skip b rest (Or.inl (by simp [hlat]))
      rw [List.foldl_cons, hvis, hval]
      exact ih st acc
    | some lat =>
      cases hlng : b.lng with
      | none =>
        have hvis : updateMapVisit (st, acc) b = (st, acc) := by
          simp [updateMapVisit, hlat, hlng]
        have hval : validIds (b :: rest) = validIds rest :=
          validIds_cons_skip b rest (Or.inr (by simp [hlng]))
        rw [List.foldl_cons, hvis, hval]
        exact ih st acc
      | some lng =>
        obtain ⟨hbm, ham, hacc⟩ := visit_fields st acc b lat lng hlat hlng
        have hval : validIds (b :: rest) = b.bus_id :: validIds rest :=
          validIds_cons_keep b rest (by simp [hlat]) (by simp [hlng])
        rw [List.foldl_cons]
        have hspec := ih (updateMapVisit (st, acc) b).1 (updateMapVisit (st, acc) b).2
        constructor
        · rw [hspec.1, hacc, hval]
          simp
        · intro id
          rw [hspec.2 id, hbm, drawBus_marker_isSome, hval]
          simp only [List.mem_cons]
          tauto

theorem removeInactive_busMarkers_lookup (st : RouteMapState) (ids : List String) (id : String) :
    alookup (removeInactive st ids).busMarkers id =
      if id ∈ ids then alookup st.busMarkers id else none := by
  have h := alookup_filter_key st.busMarkers (fun k => decide (k ∈ ids)) id
  simp only [removeInactive]
  simpa using h

theorem removeInactive_anim_lookup (st : RouteMapState) (ids : List String) (id : String) :
    alookup (removeInactive st ids).animationState id =
      if ((alookup st.busMarkers id).isSome = false ∨ id ∈ ids)
      then alookup st.animationState id else none := by
  have h := alookup_filter_key st.animationState
    (fun k => decide ((alookup st.busMarkers k).isSome = false ∨ k ∈ ids)) id
  simp only [removeInactive]
  simpa using h

theorem stationInv_of_eq {n : String} {st1 st2 : RouteMapState}
    (h : StationInv n st1) (hm : st2.stationMarkers = st1.stationMarkers)
    (hc : st2.stationCreations = st1.stationCreations) : StationInv n st2 := by
  simp only [StationInv, hm, hc]
  exact h

theorem mem_append_single_of_ne {n m : String} (l : List String) (hn : m ≠ n) :
    (n ∈ l ++ [m]) ↔ n ∈ l := by
  constructor
  · intro hx
    rcases List.mem_append.mp hx with hx | hx
    · exact hx
    · exact absurd (List.mem_singleton.mp hx).symm hn
  · intro hx
    exact List.mem_append.mpr (Or.inl hx)

theorem drawStation_inv (n : String) (st : RouteMapState) (s : ChargingStation)
    (h : StationInv n st) : StationInv n (drawStation st s) := by
  by_cases hmem : s.name ∈ st.stationMarkers
  · simpa [drawStation, hmem] using h
  · obtain ⟨h1, h2⟩ := h
    have hms : (drawStation st s).stationMarkers = st.stationMarkers ++ [s.name] := by
      simp [drawStation, hmem]
    have hcs : (drawStation st s).stationCreations = st.stationCreations ++ [s.name] := by
      simp [drawStation, hmem]
    simp only [StationInv, hms, hcs, countName_append, countName_singleton]
    by_cases hn : s.name = n
    · subst hn
      have hone : countName st.stationCreations s.name ≠ 1 := fun hc => hmem (h2.mp hc)
      have hz : countName st.stationCreations s.name = 0 := by omega
      simp [hz, List.mem_append]
    · rw [if_neg hn, Nat.add_zero]
      exact ⟨h1, h2.trans (mem_append_single_of_ne st.stationMarkers hn).symm⟩

theorem drawEmergency_inv (n : String) (st : RouteMapState) (b : Bus)
    (h : StationInv n st) (hne : ∀ s, b.charging_station = some s → s.name ≠ n) :
    StationInv n (drawOptimizedEmergencyRoute st b) := by
  cases hcs : b.charging_station with
  | none => simpa [drawOptimizedEmergencyRoute, hcs] using h
  | some s =>
    have hn : s.name ≠ n := hne s hcs
    obtain ⟨h1, h2⟩ := h
    have hcrea : (drawOptimizedEmergencyRoute st b).stationCreations
        = st.stationCreations ++ [s.name] := by
      simp [drawOptimizedEmergencyRoute, hcs]
    have hmark : (n ∈ (drawOptimizedEmergencyRoute st b).stationMarkers)
        ↔ n ∈ st.stationMarkers := by
      simp only [drawOptimizedEmergencyRoute, hcs]
      by_cases hm : s.name ∈ st.stationMarkers
      · simp [hm]
      · simp only [if_neg hm]
        exact mem_append_single_of_ne st.stationMarkers hn
    simp only [StationInv, hcrea, countName_append, countName_singleton, if_neg hn,
      Nat.add_zero]
    exact ⟨h1, h2.trans hmark.symm⟩

theorem visit_station_inv (n : String) (p : RouteMapState × List String) (b : Bus)
    (h : StationInv n p.1)
    (hb : ¬ (b.status = "CRITICAL" ∧ stationNameOf b = some n)) :
    StationInv n (updateMapVisit p b).1 := by
  cases hlat : b.lat with
  | none => simpa [updateMapVisit, hlat] using h
  | some lat =>
    cases hlng : b.lng with
    | none => simpa [updateMapVisit, hlat, hlng] using h
    | some lng =>
      have hst : StationInv n (drawBus p.1 b.bus_id lat lng) :=
        stationInv_of_eq h (drawBus_station_fields p.1 b.bus_id lat lng).1
          (drawBus_station_fields p.1 b.bus_id lat lng).2
      simp only [updateMapVisit, hlat, hlng]
      cases hcs : b.charging_station with
      | none => simpa using hst
      | some s =>
        by_cases hcrit : b.status = "CRITICAL"
        · simp only [hcrit, if_true]
          refine drawEmergency_inv n _ b hst (fun s2 hs2 heq => hb ⟨hcrit, ?_⟩)
          simp [stationNameOf, hs2, heq]
        · simp only [hcrit, if_false]
          exact drawStation_inv n _ s hst

theorem foldl_station_inv (n : String) (buses : List Bus) (p : RouteMapState × List String)
    (h : StationInv n p.1)
    (hb : ∀ b ∈ buses, ¬ (b.status = "CRITICAL" ∧ stationNameOf b = some n)) :
    StationInv n (buses.foldl updateMapVisit p).1 := by
  induction buses generalizing p with
  | nil => simpa using h
  | cons b rest ih =>
    rw [List.foldl_cons]
    exact ih _ (visit_station_inv n p b h (hb b (by simp)))
      (fun x hx => hb x (by simp [hx]))

theorem updateMap_station_inv (n : String) (st : RouteMapState) (buses : List Bus)
    (h : StationInv n st)
    (hb : ∀ b ∈ buses, ¬ (b.status = "CRITICAL" ∧ stationNameOf b = some n)) :
    StationInv n (updateMap st buses) := by
  have hf := foldl_station_inv n buses (st, []) h hb
  exact stationInv_of_eq hf rfl rfl

/-! ## Claim theorems -/

/-- C1 counterexample: in a successful poll cycle whose batch contains bus
"B1" with `null` coordinates, the previously rendered marker of "B1" is
removed even though "B1" is present in the batch, so the rendered marker set
does not equal the identifier set of the batch. -/
theorem updateMap_batch_set_counterexample :
    "B1" ∈ [(⟨"B1", "R1", none, none, 50, "GOOD", none⟩ : Bus)].map Bus.bus_id ∧
    alookup (fetchRouteStatusCycle ⟨⟨[("B1", (0, 0))], [("B1", (0, 0))], [], []⟩, [], none⟩ ""
      (.payload true [⟨"B1", "R1", none, none, 50, "GOOD", none⟩])).mapState.busMarkers "B1"
      = none := by
  constructor
  · decide
  · decide

/-- C1 (amended): after `updateMap buses`, the rendered marker key set
equals the set of identifiers of buses of the list handed to `updateMap`
(the filtered batch) that carry non-null coordinates; every previously known
identifier outside that set has both its marker and its interpolation state
removed. -/
theorem updateMap_reconciles_marker_set (st : RouteMapState) (buses : List Bus) (id : String) :
    ((alookup (updateMap st buses).busMarkers id).isSome = true ↔ id ∈ validIds buses) ∧
    (id ∉ validIds buses → (alookup st.busMarkers id).isSome = true →
      alookup (updateMap st buses).busMarkers id = none ∧
      alookup (updateMap st buses).animationState id = none) := by
  obtain ⟨hacc, hspec⟩ := foldl_visit_spec buses st []
  have hids : (buses.foldl updateMapVisit (st, [])).2 = validIds buses := by simpa using hacc
  constructor
  · simp only [updateMap]
    rw [removeInactive_busMarkers_lookup, hids]
    by_cases hmem : id ∈ validIds buses
    · rw [if_pos hmem]
      exact ⟨fun _ => hmem, fun _ => (hspec id).mpr (Or.inr hmem)⟩
    · rw [if_neg hmem]
      simp [hmem]
  · intro hmem hprev
    constructor
    · simp only [updateMap]
      rw [removeInactive_busMarkers_lookup, hids, if_neg hmem]
    · simp only [updateMap]
      rw [removeInactive_anim_lookup, hids]
      have hsome : (alookup (buses.foldl updateMapVisit (st, [])).1.busMarkers id).isSome
          = true := (hspec id).mpr (Or.inl hprev)
      rw [if_neg]
      simp [hsome, hmem]

/-- C1 witness: a concrete cycle — bus "B1" of the batch gets a marker, the
stale marker of "B2" together with its interpolation state disappears. -/
theorem updateMap_reconciles_marker_set_witness :
    ((alookup (updateMap ⟨[("B2", (0, 0))], [("B2", (0, 0))], [], []⟩
        [⟨"B1", "R1", some 1, some 2, 50, "GOOD", none⟩]).busMarkers "B1").isSome = true ↔
      "B1" ∈ validIds [⟨"B1", "R1", some 1, some 2, 50, "GOOD", none⟩]) ∧
    (alookup (updateMap ⟨[("B2", (0, 0))], [("B2", (0, 0))], [], []⟩
        [⟨"B1", "R1", some 1, some 2, 50, "GOOD", none⟩]).busMarkers "B2" = none ∧
     alookup (updateMap ⟨[("B2", (0, 0))], [("B2", (0, 0))], [], []⟩
        [⟨"B1", "R1", some 1, some 2, 50, "GOOD", none⟩]).animationState "B2" = none) :=
  ⟨(updateMap_reconciles_marker_set ⟨[("B2", (0, 0))], [("B2", (0, 0))], [], []⟩
      [⟨"B1", "R1", some 1, some 2, 50, "GOOD", none⟩] "B1").1,
   (updateMap_reconciles_marker_set ⟨[("B2", (0, 0))], [("B2", (0, 0))], [], []⟩
      [⟨"B1", "R1", some 1, some 2, 50, "GOOD", none⟩] "B2").2 (by decide) (by decide)⟩

/-- C2 counterexample: with the end-SoC KPI showing "80%" from an earlier
success, a failed prediction call overwrites it with the placeholder "--%",
so prior display state does NOT remain unchanged. -/
theorem remote_failure_overwrite_counterexample :
    (predictTrip ⟨"80%", "SAFE", "#10b981", "45 km/h", none, none⟩
      (PredResponse.failed none)).endSoc = "--%" ∧
    ¬ (predictTrip ⟨"80%", "SAFE", "#10b981", "45 km/h", none, none⟩
      (PredResponse.failed none)).endSoc = "80%" := by
  constructor
  · rfl
  · decide

/-- C2 (amended): every remote-call failure is caught at the call site and
surfaces a human-readable inline message, but prior display state is not
always preserved: the prediction controller resets its KPI fields to
placeholder text and the error path of the logs controller clears its table. -/
theorem remote_failure_message_and_reset (ui : PredictionUI) (e : Option String)
    (msg : String) (lui : LogsUI) (m : String) :
    (predictTrip ui (PredResponse.failed e)).message
      = some (jsOrElse e "Prediction engine error", "error") ∧
    (predictTrip ui (PredResponse.failed e)).endSoc = "--%" ∧
    (predictTrip ui (PredResponse.failed e)).risk = "--" ∧
    (predictTrip ui (PredResponse.failed e)).speed = "-- km/h" ∧
    (predictTrip ui (PredResponse.netError msg)).message = some (msg, "error") ∧
    (predictTrip ui (PredResponse.netError msg)).endSoc = "--%" ∧
    (showState lui m "error").stateVisible = true ∧
    (showState lui m "error").stateText = m ∧
    (showState lui m "error").tableRows = [] :=
  ⟨rfl, rfl, rfl, rfl, rfl, rfl, rfl, rfl, rfl⟩

/-- C3: a full 40-step `animateBus` interpolation run in isolation lands the
cursor exactly on the target: in exact arithmetic A + 40·((B − A)/40) = B,
so the final step leaves no residual offset. -/
theorem animateBus_full_run_reaches_target (c : Cursor) (target : ℚ × ℚ) :
    animateBusRun c target = ⟨target.1, target.2⟩ := by
  rw [animateBusRun, stepN_eq]
  have h40 : ((animSteps : ℕ) : ℚ) ≠ 0 := by norm_num [animSteps]
  refine congrArg₂ Cursor.mk ?_ ?_ <;> field_simp

/-- C4 counterexample: the cursor starts at (0,0); `animateBus` is called
with target (40,0) and, before its 39 pending steps run, called again with
target (10,0).  Were movement governed solely by the most recent target, the
cursor would come to rest at latitude 10; running both steppers to
exhaustion actually leaves it at latitude 49 — all 39 steps of the superseded stepper kept advancing the cursor. -/
theorem animate_retarget_counterexample :
    (runFrames 39 (animateBusCall (animateBusCall ⟨⟨0, 0⟩, []⟩ (40, 0)) (10, 0))).cursor.lat
      = 49 ∧ (49 : ℚ) ≠ 10 := by
  constructor
  · have hm : maxRem (animateBusCall (animateBusCall ⟨⟨0, 0⟩, []⟩ (40, 0)) (10, 0)).steppers
        ≤ 39 := by
      simp [animateBusCall, maxRem, animSteps]
    have h := runFrames_exhausts 39 _ hm
    rw [h.1]
    simp [animateBusCall, animSteps, residualLat]
    norm_num
  · norm_num

/-- C4 (amended): a new `animateBus` call does not cancel the steppers
already in flight; it only adds one more.  Once every stepper is exhausted
the cursor rests at the new target PLUS the residual displacement of every
superseded interpolation — last-write-wins retargeting does not hold. -/
theorem animate_retarget_residual (sys : AnimSys) (target : ℚ × ℚ) (k : ℕ)
    (h : maxRem (animateBusCall sys target).steppers ≤ k) :
    (runFrames k (animateBusCall sys target)).cursor.lat
      = target.1 + residualLat sys.steppers ∧
    (runFrames k (animateBusCall sys target)).cursor.lng
      = target.2 + residualLng sys.steppers := by
  have hrun := runFrames_exhausts k (animateBusCall sys target) h
  constructor
  · rw [hrun.1]
    show (animateBusCall sys target).cursor.lat
        + residualLat (animateBusCall sys target).steppers = _
    simp only [animateBusCall]
    rw [residualLat_append]
    simp only [animSteps]
    push_cast
    field_simp
    ring
  · rw [hrun.2]
    show (animateBusCall sys target).cursor.lng
        + residualLng (animateBusCall sys target).steppers = _
    simp only [animateBusCall]
    rw [residualLng_append]
    simp only [animSteps]
    push_cast
    field_simp
    ring

/-- C4 witness: one call from a quiescent cursor (no in-flight steppers) run
to exhaustion lands exactly on the target plus an empty residual. -/
theorem animate_retarget_residual_witness :
    (runFrames 39 (animateBusCall ⟨⟨0, 0⟩, []⟩ (40, 0))).cursor.lat
      = 40 + residualLat [] ∧
    (runFrames 39 (animateBusCall ⟨⟨0, 0⟩, []⟩ (40, 0))).cursor.lng
      = 0 + residualLng [] :=
  animate_retarget_residual ⟨⟨0, 0⟩, []⟩ (40, 0) 39
    (by simp [animateBusCall, maxRem, animSteps])

/-- C5: along every event sequence of the poll loop at most one telemetry
request is ever in flight, and a trigger arriving while `isFetching` holds
only bumps the dropped counter — same flag, same in-flight count, no request
issued and nothing queued. -/
theorem poll_single_flight_and_drop (evs : List PollEvent) (s : PollState) :
    (pollRun evs).inFlight ≤ 1 ∧
    (s.isFetching = true → pollStep s .trigger = { s with dropped := s.dropped + 1 }) := by
  refine ⟨(pollRun_inv evs).1, fun h => ?_⟩
  simp [pollStep, h]

/-- C5 witness: two back-to-back triggers keep at most one request in
flight, and a trigger against a fetching state only increments `dropped`. -/
theorem poll_single_flight_and_drop_witness :
    (pollRun [PollEvent.trigger, PollEvent.trigger]).inFlight ≤ 1 ∧
    pollStep ⟨true, 1, 1, 0⟩ PollEvent.trigger = ⟨true, 1, 1, 1⟩ := by
  have h := poll_single_flight_and_drop [PollEvent.trigger, PollEvent.trigger] ⟨true, 1, 1, 0⟩
  exact ⟨h.1, h.2 rfl⟩

/-- C6 counterexample: one critical bus referencing station "S" across two
poll cycles makes `drawOptimizedEmergencyRoute` create a station marker for
"S" twice — the lifetime at-most-once dedup does not hold when a
referencing bus is critical. -/
theorem station_marker_dup_counterexample :
    countName (updateMap (updateMap initialMapState
        [⟨"B1", "R1", some 0, some 0, 20, "CRITICAL", some ⟨"S", 1, 1, true⟩⟩])
        [⟨"B1", "R1", some 0, some 0, 20, "CRITICAL", some ⟨"S", 1, 1, true⟩⟩]).stationCreations
      "S" = 2 := by
  decide

/-- C6 (amended): the at-most-once-per-name station marker creation holds
only while no critical bus references the name: for any page lifetime in
which no batch contains a bus that is both critical and tied to station
name `n`, at most one marker is ever created for `n`; each critical
reference creates an additional marker unconditionally. -/
theorem station_created_once_without_critical (n : String) (cycles : List (List Bus))
    (h : ∀ cycle ∈ cycles, ∀ b ∈ cycle,
      ¬ (b.status = "CRITICAL" ∧ stationNameOf b = some n)) :
    countName (pageRun cycles).stationCreations n ≤ 1 := by
  suffices hgen : ∀ st : RouteMapState, StationInv n st →
      StationInv n (cycles.foldl updateMap st) by
    exact (hgen initialMapState (by simp [StationInv, initialMapState, countName])).1
  induction cycles with
  | nil => intro st hst; simpa using hst
  | cons c rest ih =>
    intro st hst
    rw [List.foldl_cons]
    exact ih (fun cyc hc => h cyc (by simp [hc]))
      (updateMap st c) (updateMap_station_inv n st c hst (h c (by simp)))

/-- C6 witness: two cycles of a non-critical bus referencing "S" create the
marker for "S" at most once. -/
theorem station_created_once_without_critical_witness :
    countName (pageRun [[⟨"B1", "R1", some 0, some 0, 50, "GOOD", some ⟨"S", 1, 1, true⟩⟩],
      [⟨"B1", "R1", some 0, some 0, 50, "GOOD", some ⟨"S", 1, 1, true⟩⟩]]).stationCreations
      "S" ≤ 1 :=
  station_created_once_without_critical "S"
    [[⟨"B1", "R1", some 0, some 0, 50, "GOOD", some ⟨"S", 1, 1, true⟩⟩],
     [⟨"B1", "R1", some 0, some 0, 50, "GOOD", some ⟨"S", 1, 1, true⟩⟩]] (by decide)

/-- C7: a failing poll — network error or a payload whose success flag is
false — shows the "Live telemetry unavailable" banner and leaves the whole
map state, in particular `busMarkers` and `animationState`, untouched. -/
theorem fetch_failure_keeps_markers (page : RoutePageState) (q : String) (buses : List Bus) :
    (fetchRouteStatusCycle page q RouteResponse.netError).mapState.busMarkers
      = page.mapState.busMarkers ∧
    (fetchRouteStatusCycle page q RouteResponse.netError).mapState.animationState
      = page.mapState.animationState ∧
    (fetchRouteStatusCycle page q RouteResponse.netError).telemetryBanner
      = some "Live telemetry unavailable" ∧
    (fetchRouteStatusCycle page q (RouteResponse.payload false buses)).mapState
      = page.mapState ∧
    (fetchRouteStatusCycle page q (RouteResponse.payload false buses)).telemetryBanner
      = some "Live telemetry unavailable" :=
  ⟨rfl, rfl, rfl, rfl, rfl⟩

/-- C8: the SoH classification maps 92 to "Good" with 0 issues, 55 to
"Attention" with 1 issue and 40 to "Critical" with 1 issue; in general it
yields "Good"/0 for SoH ≥ 90, "Proper"/0 for 60 ≤ SoH < 90, "Attention"/1
for 50 ≤ SoH < 60 and "Critical"/1 below 50. -/
theorem soh_classification (soh : ℚ) :
    getStatusAndIssues 92 = ⟨"Good", 0⟩ ∧
    getStatusAndIssues 55 = ⟨"Attention", 1⟩ ∧
    getStatusAndIssues 40 = ⟨"Critical", 1⟩ ∧
    (90 ≤ soh → getStatusAndIssues soh = ⟨"Good", 0⟩) ∧
    (60 ≤ soh → soh < 90 → getStatusAndIssues soh = ⟨"Proper", 0⟩) ∧
    (50 ≤ soh → soh < 60 → getStatusAndIssues soh = ⟨"Attention", 1⟩) ∧
    (soh < 50 → getStatusAndIssues soh = ⟨"Critical", 1⟩) := by
  refine ⟨by norm_num [getStatusAndIssues], by norm_num [getStatusAndIssues],
    by norm_num [getStatusAndIssues], fun h => ?_, fun h1 h2 => ?_, fun h1 h2 => ?_,
    fun h => ?_⟩
  · rw [getStatusAndIssues, if_pos h]
  · rw [getStatusAndIssues, if_neg (by linarith), if_pos h1]
  · rw [getStatusAndIssues, if_neg (by linarith), if_neg (by linarith), if_pos h1]
  · rw [getStatusAndIssues, if_neg (by linarith), if_neg (by linarith), if_neg (by linarith)]

/-- C8 witness: the four threshold bands evaluated at 95, 75, 55 and 40. -/
theorem soh_classification_witness :
    getStatusAndIssues 95 = ⟨"Good", 0⟩ ∧ getStatusAndIssues 75 = ⟨"Proper", 0⟩ ∧
    getStatusAndIssues 55 = ⟨"Attention", 1⟩ ∧ getStatusAndIssues 40 = ⟨"Critical", 1⟩ :=
  ⟨(soh_classification 95).2.2.2.1 (by norm_num),
   (soh_classification 75).2.2.2.2.1 (by norm_num) (by norm_num),
   (soh_classification 55).2.1,
   (soh_classification 40).2.2.1⟩

/-- C9: on a response with ok/success flags set and a non-empty token, the
login flow stores exactly that token under the `evfleet_token` storage key
and navigates to `/index.html`; on any non-success response the storage is
untouched and no navigation happens. -/
theorem login_success_stores_token_and_redirects (st : Storage) (emailField : String)
    (resp : LoginResponse) :
    (resp.ok = true → resp.success = true → jsTruthy resp.token = true →
      (loginUser st emailField resp).storage.getItem "evfleet_token" = resp.token ∧
      (loginUser st emailField resp).navigatedTo = some "/index.html") ∧
    (¬ (resp.ok = true ∧ resp.success = true ∧ jsTruthy resp.token = true) →
      (loginUser st emailField resp).storage = st ∧
      (loginUser st emailField resp).navigatedTo = none) := by
  constructor
  · intro hok hsucc htok
    have hguard : (!resp.ok || !resp.success || !jsTruthy resp.token) = false := by
      simp [hok, hsucc, htok]
    cases htk : resp.token with
    | none => rw [htk] at htok; simp [jsTruthy] at htok
    | some t =>
      have ht : jsTruthy (some t) = true := htk ▸ htok
      constructor
      · simp only [loginUser, htk, Storage.getItem, Storage.setItem]
        rw [if_neg (by simp [hok, hsucc, ht])]
        rw [alookup_ainsert, if_neg (by decide), alookup_ainsert, if_pos rfl]
      · simp only [loginUser, htk]
        rw [if_neg (by simp [hok, hsucc, ht])]
  · intro hno
    cases hb : (!resp.ok || !resp.success || !jsTruthy resp.token) with
    | false =>
      exfalso
      apply hno
      simp at hb
      tauto
    | true => exact ⟨by simp [loginUser, hb], by simp [loginUser, hb]⟩

/-- C9 witness: the concrete response of the claim — ok, success, token
"abc", user "Jo" — stores "abc" and redirects to the dashboard. -/
theorem login_success_stores_token_and_redirects_witness :
    (loginUser [] "jo@fleet.io"
      ⟨true, true, some "abc", none, ⟨"Jo", "admin", none⟩⟩).storage.getItem "evfleet_token"
      = some "abc" ∧
    (loginUser [] "jo@fleet.io"
      ⟨true, true, some "abc", none, ⟨"Jo", "admin", none⟩⟩).navigatedTo
      = some "/index.html" :=
  (login_success_stores_token_and_redirects [] "jo@fleet.io"
    ⟨true, true, some "abc", none, ⟨"Jo", "admin", none⟩⟩).1 rfl rfl (by decide)

/-- C10: the guard reads storage key "token" while login writes only
"evfleet_token"/"evfleet_user"; hence on a storage produced solely by a
successful login, `getCurrentUser` returns null without sending any request
(whatever the server would answer) and `requireAuth` redirects to the login
page. -/
theorem auth_guard_token_key_mismatch (emailField : String) (resp : LoginResponse)
    (server : MeResponse) (hok : resp.ok = true) (hsucc : resp.success = true)
    (htok : jsTruthy resp.token = true) :
    getCurrentUser (loginUser [] emailField resp).storage server = ⟨none, false⟩ ∧
    (requireAuth (loginUser [] emailField resp).storage server).navigatedTo
      = some "login.html" := by
  have hguard : (!resp.ok || !resp.success || !jsTruthy resp.token) = false := by
    simp [hok, hsucc, htok]
  have hstorage : (loginUser [] emailField resp).storage.getItem "token" = none := by
    simp [loginUser, hguard, Storage.getItem, Storage.setItem, alookup_ainsert, alookup]
  constructor
  · simp [getCurrentUser, hstorage]
  · simp [requireAuth, getCurrentUser, hstorage]

/-- C10 witness: after the concrete successful login of C9, the guard finds
no "token" key, sends nothing, and bounces to the login page. -/
theorem auth_guard_token_key_mismatch_witness :
    getCurrentUser (loginUser [] "jo@fleet.io"
      ⟨true, true, some "abc", none, ⟨"Jo", "admin", none⟩⟩).storage MeResponse.netError
      = ⟨none, false⟩ ∧
    (requireAuth (loginUser [] "jo@fleet.io"
      ⟨true, true, some "abc", none, ⟨"Jo", "admin", none⟩⟩).storage
      MeResponse.netError).navigatedTo = some "login.html" :=
  auth_guard_token_key_mismatch "jo@fleet.io"
    ⟨true, true, some "abc", none, ⟨"Jo", "admin", none⟩⟩ MeResponse.netError rfl rfl
    (by decide)

end EVFleet
